import Mathlib

/-!
Shallow embedding of the query-execution core of the `streaming-mcp`
repository (`src/langchain_streaming_mcp/mysql_tool.py` and the tool-dispatch
handler in `src/langchain_streaming_mcp/mcp_server.py`), together with proofs
about the behaviour its specification describes.

Python text is modelled as a list of Unicode code points (`PyStr`); ASCII case
mapping is modelled explicitly (the SQL keywords and denylist patterns the
code compares against are all ASCII).  The external `aiomysql` driver is
modelled by an explicit environment (`DBEnv`) that fixes what each driver
call returns for the one tool call under consideration, and the mutable
`MySQLTool` instance state (`self._connection_pool`) is threaded explicitly
(`ToolState`).  Python exceptions are modelled with `Except PyErr`, where a
`PyErr` carries the message and the exception class name.  Side effects on
the database connection are recorded in an `Effect` trace so that temporal
claims ("no pool is created", "the query reaches cursor execution") can be
stated.
-/

deriving instance DecidableEq for Except

namespace StreamingMCP

/-- Python text, as a list of Unicode code points. -/
abbrev PyStr := List Nat

/-- Code points of a Lean string literal, used to transcribe the Python
string literals appearing in the source. -/
def pyS (s : String) : PyStr := s.data.map Char.toNat

/-- Python's notion of whitespace for `str.strip` / `str.split`
(space, tab, newline, carriage return, vertical tab, form feed). -/
def pyIsWs (n : Nat) : Bool :=
  decide (n = 32 ∨ n = 9 ∨ n = 10 ∨ n = 13 ∨ n = 11 ∨ n = 12)

/-- ASCII lower-casing of one code point (Python `str.lower` restricted to
the ASCII range; all patterns the source compares against are ASCII). -/
def pyLowerChar (n : Nat) : Nat := if 65 ≤ n ∧ n ≤ 90 then n + 32 else n

/-- ASCII upper-casing of one code point (Python `str.upper` on ASCII). -/
def pyUpperChar (n : Nat) : Nat := if 97 ≤ n ∧ n ≤ 122 then n - 32 else n

/-- Python `str.lower` (ASCII model). -/
def pyLower (s : PyStr) : PyStr := s.map pyLowerChar

/-- Python `str.upper` (ASCII model). -/
def pyUpper (s : PyStr) : PyStr := s.map pyUpperChar

/-- Python `str.strip()`: remove leading and trailing whitespace. -/
def pyStrip (s : PyStr) : PyStr :=
  ((s.dropWhile pyIsWs).reverse.dropWhile pyIsWs).reverse

/-- Helper for Python `str.split()`: `cur` is the reversed in-progress
word. -/
def splitAux : PyStr → PyStr → List PyStr
  | [], cur => if cur = [] then [] else [cur.reverse]
  | c :: rest, cur =>
    if pyIsWs c then
      if cur = [] then splitAux rest [] else cur.reverse :: splitAux rest []
    else splitAux rest (c :: cur)

/-- Python `str.split()` with no separator: split on runs of whitespace,
discarding empty pieces. -/
def pySplitWs (s : PyStr) : List PyStr := splitAux s []

/-- The fixed denylist from `MySQLQueryInput.validate_query`
(`dangerous_patterns` in the source). -/
def dangerous_patterns : List PyStr :=
  [pyS "drop database", pyS "drop schema", pyS "drop table",
   pyS "truncate table", pyS "delete from", pyS "format c:",
   pyS "rm -rf", pyS "shutdown", pyS "system", pyS "exec(",
   pyS "xp_cmdshell"]

/-- The rejection message for an empty query. -/
def emptyMsg : PyStr := pyS "Query cannot be empty"

/-- The rejection message naming a denylisted pattern
(`f"Query contains potentially dangerous pattern: \x7bpattern\x7d"`). -/
def dangerousMsg (p : PyStr) : PyStr :=
  pyS "Query contains potentially dangerous pattern: " ++ p

/-- `MySQLQueryInput.validate_query`: reject empty/whitespace-only text,
then reject the first denylisted substring found in
`query_lower = v.lower().strip()`; otherwise return the text unchanged. -/
def validate_query (v : PyStr) : Except PyStr PyStr :=
  if v = [] ∨ pyStrip v = [] then .error emptyMsg
  else
    match dangerous_patterns.find?
        (fun p => decide (p <:+: pyStrip (pyLower v))) with
    | some p => .error (dangerousMsg p)
    | none => .ok v

/-- A raised Python exception: its message (`str(e)`) and its class name
(`type(e).__name__`). -/
structure PyErr where
  msg : PyStr
  clsName : PyStr
deriving DecidableEq

/-- A driver-native cell value as far as this code observes it: it is
rendered with `str`, compared with `==`, tested for truthiness and for
`is not None`.  Integers, text, `None` and booleans cover every observation
the source makes. -/
inductive Value where
  | vNone : Value
  | vInt (i : Int) : Value
  | vStr (s : PyStr) : Value
  | vBool (b : Bool) : Value
deriving DecidableEq

/-- One result row, an ordered sequence of cell values. -/
abbrev Row := List Value

/-- Python truthiness of a cell value. -/
def pyTruthy : Value → Bool
  | .vNone => false
  | .vInt i => decide (i ≠ 0)
  | .vStr s => decide (s ≠ [])
  | .vBool b => b

/-- Python `str()` of a cell value (f-string interpolation). -/
def pyStrV : Value → PyStr
  | .vNone => pyS "None"
  | .vInt i => pyS (toString i)
  | .vStr s => s
  | .vBool b => if b then pyS "True" else pyS "False"

/-- Python `repr()` of a cell value, as used when a whole row (a Python
list) is interpolated into an f-string.  String escaping inside the quotes
is not modelled. -/
def pyReprV : Value → PyStr
  | .vNone => pyS "None"
  | .vInt i => pyS (toString i)
  | .vStr s => pyS "'" ++ s ++ pyS "'"
  | .vBool b => if b then pyS "True" else pyS "False"

/-- Python `str()` of a row (`f"\x7brow\x7d"` where `row` is a list). -/
def pyStrRow (r : Row) : PyStr :=
  pyS "[" ++ (List.intercalate (pyS ", ") (r.map pyReprV)) ++ pyS "]"

/-- One entry of `cursor.description` (the DB-API 7-tuple).  `typeName`
models `desc[1].__name__` for a truthy type class and `none` for a falsy
`desc[1]`. -/
structure ColDesc where
  name : PyStr
  typeName : Option PyStr
  display_size : Value
  internal_size : Value
  precision : Value
  scale : Value
  null_ok : Value
deriving DecidableEq

/-- The per-column metadata dict built in the SELECT branch of
`_execute_query`. -/
structure ColMeta where
  name : PyStr
  type : PyStr
  display_size : Value
  internal_size : Value
  precision : Value
  scale : Value
  null_ok : Value
deriving DecidableEq

/-- The heterogeneous `result["columns"]` value: a list of per-column dicts
(SELECT branch) or a list of bare column names (the "other" branch). -/
inductive ColumnsVal where
  | full (cols : List ColMeta) : ColumnsVal
  | names (ns : List PyStr) : ColumnsVal
deriving DecidableEq

/-- The result dictionary built by `_execute_query`.  Keys that are only
present in some shapes are modelled with `Option`, `none` meaning the key
is absent; `Python dict.get k default` is `field.getD default`.
`last_insert_id` is doubly optional: the key may be absent, and when
present its value may be Python `None`. -/
structure QueryResult where
  query : PyStr
  success : Bool
  timestamp : Int
  query_type : Option PyStr := none
  rows : Option (List Row) := none
  row_count : Option Nat := none
  limited : Option Bool := none
  columns : Option ColumnsVal := none
  affected_rows : Option Int := none
  last_insert_id : Option (Option Int) := none
  ddl_executed : Option Bool := none
  message : Option PyStr := none
  error : Option PyStr := none
  error_type : Option PyStr := none
deriving DecidableEq

/-- The mutable per-instance state of a `MySQLTool`:
`self._connection_pool`, holding a pool identifier when a pool exists. -/
structure ToolState where
  connection_pool : Option Nat
deriving DecidableEq

/-- Observable driver-side effects of one call, recorded so that temporal
properties (pool creation, reaching cursor execution) can be stated. -/
inductive Effect where
  | createPool (p : Nat) : Effect
  | acquireConn : Effect
  | execSQL (sql : PyStr) : Effect
  | fetchMany (n : Int) : Effect
  | fetchAll : Effect
  | closePool : Effect
deriving DecidableEq

/-- The behaviour of the external `aiomysql` driver during one call:
what each driver operation would return or raise. -/
structure DBEnv where
  /-- `asyncio.get_event_loop().time()` at failure-record creation. -/
  now : Int
  /-- Outcome of `aiomysql.create_pool(...)`: a fresh pool id, or a raise. -/
  createPoolResult : Except PyErr Nat
  /-- Outcome of `pool.acquire()` / `connection.cursor()`. -/
  acquireResult : Except PyErr Unit
  /-- Outcome of `cursor.execute(f"USE \x7bdatabase\x7d")`. -/
  useResult : Except PyErr Unit
  /-- Outcome of `cursor.execute(query)`. -/
  execResult : Except PyErr Unit
  /-- The statement's full result set, as the cursor would deliver it. -/
  resultSet : List Row
  /-- Outcome of `cursor.fetchmany` / `cursor.fetchall` (raise or deliver). -/
  fetchResult : Except PyErr Unit
  /-- `cursor.description` (`none` models Python `None`). -/
  description : Option (List ColDesc)
  /-- `cursor.rowcount`. -/
  rowcount : Int
  /-- `cursor.lastrowid` when the attribute exists (`none` models absence). -/
  lastrowid : Option Int
deriving DecidableEq

/-- `MySQLTool._get_connection_pool`: return the cached pool if the
attribute is truthy, otherwise create one and cache it; a creation failure
is re-raised and the cache stays empty. -/
def _get_connection_pool (st : ToolState) (create : Except PyErr Nat) :
    Except PyErr Nat × ToolState × List Effect :=
  match st.connection_pool with
  | some p => (.ok p, st, [])
  | none =>
    match create with
    | .ok p => (.ok p, { connection_pool := some p }, [.createPool p])
    | .error e => (.error e, st, [])

/-- `MySQLTool._close_connection_pool`: close and clear the pool when one
exists, otherwise do nothing. -/
def _close_connection_pool (st : ToolState) : ToolState × List Effect :=
  match st.connection_pool with
  | some _ => ({ connection_pool := none }, [.closePool])
  | none => (st, [])

/-- `query_type = query.strip().upper().split()[0]`, as an `Option`:
`none` models the `IndexError` raised when `split()` is empty. -/
def queryTypeOf (query : PyStr) : Option PyStr :=
  (pySplitWs (pyUpper (pyStrip query))).head?

/-- The statement classes distinguished by the `if/elif` chain on
`query_type` in `_execute_query`. -/
inductive StatementClass where
  | read : StatementClass
  | mutation : StatementClass
  | definition : StatementClass
  | other : StatementClass
deriving DecidableEq

/-- The `if/elif` chain of `_execute_query` on the computed `query_type`
tag: `SELECT`; `INSERT`/`UPDATE`/`DELETE`; `CREATE`/`ALTER`/`DROP`; else. -/
def classOfTag (qt : PyStr) : StatementClass :=
  if qt = pyS "SELECT" then .read
  else if qt = pyS "INSERT" ∨ qt = pyS "UPDATE" ∨ qt = pyS "DELETE" then .mutation
  else if qt = pyS "CREATE" ∨ qt = pyS "ALTER" ∨ qt = pyS "DROP" then .definition
  else .other

/-- The statement class the executor would use for a query, when the text
has a first token at all. -/
def classifyQuery (query : PyStr) : Option StatementClass :=
  (queryTypeOf query).map classOfTag

/-- Truthiness of `cursor.description` (`None` and `[]` are falsy). -/
def descTruthy (d : Option (List ColDesc)) : Bool :=
  match d with
  | some l => decide (l ≠ [])
  | none => false

/-- One column-metadata dict of the SELECT branch
(`desc[1].__name__ if desc[1] else "unknown"` for the type label). -/
def colMetaOf (d : ColDesc) : ColMeta :=
  { name := d.name,
    type := d.typeName.getD (pyS "unknown"),
    display_size := d.display_size,
    internal_size := d.internal_size,
    precision := d.precision,
    scale := d.scale,
    null_ok := d.null_ok }

/-- The failure-shaped record built by the `except` clause of
`_execute_query`. -/
def failureRecord (query : PyStr) (e : PyErr) (now : Int) : QueryResult :=
  { query := query, success := false, timestamp := now,
    error := some e.msg, error_type := some e.clsName }

/-- The SELECT-branch record: rows fetched with `fetchmany(limit)`,
`limited` true iff some rows came back and exactly `limit` of them. -/
def selectRecord (env : DBEnv) (query qt : PyStr) (limit : Int)
    (fetch_metadata : Bool) : QueryResult :=
  let rows := env.resultSet.take limit.toNat
  { query := query, success := true, timestamp := env.now,
    query_type := some qt,
    rows := some rows,
    row_count := some rows.length,
    limited := some (if rows = [] then false else decide ((rows.length : Int) = limit)),
    columns :=
      if fetch_metadata ∧ descTruthy env.description then
        some (.full ((env.description.getD []).map colMetaOf))
      else none }

/-- The INSERT/UPDATE/DELETE-branch record. -/
def mutationRecord (env : DBEnv) (query qt : PyStr) : QueryResult :=
  { query := query, success := true, timestamp := env.now,
    query_type := some qt,
    affected_rows := some env.rowcount,
    last_insert_id := some env.lastrowid }

/-- The CREATE/ALTER/DROP-branch record. -/
def ddlRecord (env : DBEnv) (query qt : PyStr) : QueryResult :=
  { query := query, success := true, timestamp := env.now,
    query_type := some qt,
    ddl_executed := some true,
    message := some (pyS "DDL statement executed successfully") }

/-- The catch-all branch record (SHOW, DESCRIBE, ...): `fetchall()`,
no limit, column names only as metadata. -/
def otherRecord (env : DBEnv) (query qt : PyStr) (fetch_metadata : Bool) :
    QueryResult :=
  { query := query, success := true, timestamp := env.now,
    query_type := some qt,
    rows := some env.resultSet,
    row_count := some env.resultSet.length,
    columns :=
      if fetch_metadata ∧ descTruthy env.description then
        some (.names ((env.description.getD []).map ColDesc.name))
      else none }

/-- Result shaping per statement class, including the fetch that the read
and catch-all branches perform. -/
def shapeStep (env : DBEnv) (query qt : PyStr) (limit : Int)
    (fetch_metadata : Bool) (tr : List Effect) :
    Except PyErr QueryResult × List Effect :=
  match classOfTag qt with
  | .read =>
    (match env.fetchResult with
     | .error e => (.error e, tr ++ [.fetchMany limit])
     | .ok _ => (.ok (selectRecord env query qt limit fetch_metadata),
                 tr ++ [.fetchMany limit]))
  | .mutation => (.ok (mutationRecord env query qt), tr)
  | .definition => (.ok (ddlRecord env query qt), tr)
  | .other =>
    (match env.fetchResult with
     | .error e => (.error e, tr ++ [.fetchAll])
     | .ok _ => (.ok (otherRecord env query qt fetch_metadata), tr ++ [.fetchAll]))

/-- The part of the guarded region after the optional `USE` switch:
execute the statement verbatim, compute the `query_type` tag (raising
`IndexError` on whitespace-only text), shape the result. -/
def execAfterUse (env : DBEnv) (query : PyStr) (limit : Int)
    (fetch_metadata : Bool) (tr : List Effect) :
    Except PyErr QueryResult × List Effect :=
  match env.execResult with
  | .error e => (.error e, tr ++ [.execSQL query])
  | .ok _ =>
    match queryTypeOf query with
    | none => (.error ⟨pyS "list index out of range", pyS "IndexError"⟩,
               tr ++ [.execSQL query])
    | some qt => shapeStep env query qt limit fetch_metadata
        (tr ++ [.execSQL query])

/-- The guarded region of `_execute_query` (the body of its `try`):
optional `USE` switch, statement execution, classification, shaping.
An `.error` outcome is an exception flying towards the `except` clause. -/
def execBody (env : DBEnv) (query : PyStr) (database : Option PyStr)
    (limit : Int) (fetch_metadata : Bool) :
    Except PyErr QueryResult × List Effect :=
  match database with
  | some d =>
    if d = [] then execAfterUse env query limit fetch_metadata []
    else
      (match env.useResult with
       | .error e => (.error e, [.execSQL (pyS "USE " ++ d)])
       | .ok _ => execAfterUse env query limit fetch_metadata
           [.execSQL (pyS "USE " ++ d)])
  | none => execAfterUse env query limit fetch_metadata []

/-- `MySQLTool._execute_query`: pool acquisition (outside the `try`),
connection/cursor acquisition (outside the `try`), then the guarded body
whose exceptions are converted into a failure-shaped record. -/
def _execute_query (st : ToolState) (env : DBEnv) (query : PyStr)
    (database : Option PyStr) (limit : Int) (fetch_metadata : Bool) :
    Except PyErr QueryResult × ToolState × List Effect :=
  match _get_connection_pool st env.createPoolResult with
  | (.error e, st2, tr) => (.error e, st2, tr)
  | (.ok _, st2, tr) =>
    match env.acquireResult with
    | .error e => (.error e, st2, tr ++ [.acquireConn])
    | .ok _ =>
      match execBody env query database limit fetch_metadata with
      | (.ok r, btr) => (.ok r, st2, tr ++ [.acquireConn] ++ btr)
      | (.error e, btr) =>
        (.ok (failureRecord query e env.now), st2, tr ++ [.acquireConn] ++ btr)

/-- Rendering of a natural number in an f-string. -/
def pyStrNat (n : Nat) : PyStr := pyS (toString n)

/-- Rendering of a Python int in an f-string. -/
def pyStrInt (i : Int) : PyStr := pyS (toString i)

/-- Rendering of a possibly-`None` string in an f-string
(`f"\x7bx\x7d"` with `x = None` prints `None`). -/
def pyStrOptS (o : Option PyStr) : PyStr := o.getD (pyS "None")

/-- Truthiness of `result.get("columns", [])`. -/
def columnsTruthy (c : Option ColumnsVal) : Bool :=
  match c with
  | some (.full cols) => decide (cols ≠ [])
  | some (.names ns) => decide (ns ≠ [])
  | none => false

/-- `col["name"] if isinstance(col, dict) else str(col)` over the
columns value. -/
def colNames : ColumnsVal → List PyStr
  | .full cols => cols.map ColMeta.name
  | .names ns => ns

/-- The per-row lines of the SELECT branch of `_format_result`:
first five rows as `  Row \x7bi+1\x7d: \x7brow\x7d`, then a
`... and N more rows` note. -/
def selectRowsBlock (rows : List Row) : PyStr :=
  if rows = [] then []
  else
    pyS "\nData:\n" ++
    ((rows.take 5).enum.map (fun p =>
        pyS "  Row " ++ pyStrNat (p.1 + 1) ++ pyS ": " ++ pyStrRow p.2 ++ pyS "\n")).flatten ++
    (if 5 < rows.length then
       pyS "  ... and " ++ pyStrNat (rows.length - 5) ++ pyS " more rows\n"
     else [])

/-- The per-row lines of the catch-all branch of `_format_result`:
first ten rows as `  \x7bi+1\x7d. \x7brow\x7d`. -/
def otherRowsBlock (rows : List Row) : PyStr :=
  if rows = [] then []
  else
    pyS "Results:\n" ++
    ((rows.take 10).enum.map (fun p =>
        pyS "  " ++ pyStrNat (p.1 + 1) ++ pyS ". " ++ pyStrRow p.2 ++ pyS "\n")).flatten

/-- `MySQLTool._format_result`.  The method receives the instance (`self`)
but reads nothing from it; the `st` argument records that. -/
def _format_result (_self : ToolState) (result : QueryResult) : PyStr :=
  if result.success = false then
    pyS "❌ MySQL Error: " ++ (result.error.getD (pyS "Unknown error")) ++
      pyS "\nQuery: " ++ result.query
  else
    let query_type := result.query_type.getD (pyS "UNKNOWN")
    let header :=
      pyS "✅ MySQL " ++ query_type ++ pyS " Query Executed Successfully\n" ++
      pyS "Query: " ++ result.query ++ pyS "\n"
    if query_type = pyS "SELECT" then
      header ++
      pyS "Rows returned: " ++ pyStrNat (result.row_count.getD 0) ++
      (if result.limited.getD false then pyS " (limited)" else []) ++ pyS "\n" ++
      (if columnsTruthy result.columns then
         pyS "Columns: " ++
           List.intercalate (pyS ", ") (colNames (result.columns.getD (.names []))) ++
           pyS "\n"
       else []) ++
      selectRowsBlock (result.rows.getD [])
    else if query_type = pyS "INSERT" ∨ query_type = pyS "UPDATE" ∨
        query_type = pyS "DELETE" then
      header ++
      pyS "Affected rows: " ++ pyStrInt (result.affected_rows.getD 0) ++ pyS "\n" ++
      (match result.last_insert_id.getD none with
       | some i => if i ≠ 0 then pyS "Last insert ID: " ++ pyStrInt i ++ pyS "\n" else []
       | none => [])
    else if result.ddl_executed.getD false then
      header ++ (result.message.getD (pyS "DDL executed successfully")) ++ pyS "\n"
    else
      header ++
      pyS "Rows returned: " ++ pyStrNat (result.rows.getD []).length ++ pyS "\n" ++
      otherRowsBlock (result.rows.getD [])

/-- `MySQLTool._arun`: execute, format; an exception escaping
`_execute_query` is caught and rendered as a tool-error line. -/
def _arun (st : ToolState) (env : DBEnv) (query : PyStr)
    (database : Option PyStr) (limit : Int) (fetch_metadata : Bool) :
    PyStr × ToolState × List Effect :=
  match _execute_query st env query database limit fetch_metadata with
  | (.ok r, st2, tr) => (_format_result st2 r, st2, tr)
  | (.error e, st2, tr) =>
    (pyS "❌ MySQL Tool Error: " ++ e.msg ++ pyS "\nQuery: " ++ query, st2, tr)

/-- The argument mapping received by `handle_call_tool` for `mysql_query`;
`none` models an absent key. -/
structure MysqlQueryArgs where
  query : Option PyStr
  database : Option PyStr
  limit : Option Int
  fetch_metadata : Option Bool
deriving DecidableEq

/-- The `mysql_query` branch of `handle_call_tool` in `mcp_server.py`:
defaults are applied with `arguments.get`, and `MySQLTool._arun` is invoked
directly on the raw `query` string. -/
def handle_call_tool_mysql_query (st : ToolState) (env : DBEnv)
    (args : MysqlQueryArgs) : PyStr × ToolState × List Effect :=
  _arun st env (args.query.getD []) args.database (args.limit.getD 100)
    (args.fetch_metadata.getD true)

/-- One event yielded by `MySQLTool.astream_events`. -/
inductive StreamEvent where
  | metadata (query : PyStr) (query_type : Option PyStr)
      (columns : Option ColumnsVal) (success : Bool) (error : Option PyStr) :
      StreamEvent
  | row (index : Nat) (rowData : Row) : StreamEvent
  | summary (row_count : Nat) (limited : Bool) (affected_rows : Option Int)
      (last_insert_id : Option Int) (ddl_executed : Bool)
      (message : Option PyStr) : StreamEvent
  | error (msg : PyStr) (errType : PyStr) : StreamEvent
deriving DecidableEq

/-- The metadata event yielded first from a result record
(`columns = none` stands for the `[]` default of `result.get`). -/
def metadataEvt (r : QueryResult) : StreamEvent :=
  .metadata r.query r.query_type r.columns r.success r.error

/-- The summary event yielded last from a result record. -/
def summaryEvt (r : QueryResult) : StreamEvent :=
  .summary (r.row_count.getD 0) (r.limited.getD false) r.affected_rows
    (r.last_insert_id.getD none) (r.ddl_executed.getD false) r.message

/-- `MySQLTool.astream_events` (with `input` the query and `config` the
database, as the source maps them): one metadata event, per-row events for
a successful SELECT, one summary event; a single error event when
`_execute_query` itself raises. -/
def astream_events (st : ToolState) (env : DBEnv) (input : PyStr)
    (config : Option PyStr) (limit : Int) (fetch_metadata : Bool) :
    List StreamEvent × ToolState × List Effect :=
  match _execute_query st env input config limit fetch_metadata with
  | (.ok r, st2, tr) =>
    (metadataEvt r ::
      ((if r.success = true ∧ r.query_type = some (pyS "SELECT") then
          (r.rows.getD []).enum.map (fun p => StreamEvent.row p.1 p.2)
        else []) ++ [summaryEvt r]),
     st2, tr)
  | (.error e, st2, tr) => ([.error e.msg e.clsName], st2, tr)

/-- Truthiness of an optional string argument (`None` and `""` are falsy). -/
def optTruthy (o : Option PyStr) : Bool := decide (o.getD [] ≠ [])

/-- `[row[0] for row in rows]`: first cell of every row, raising
`IndexError` at the first empty row. -/
def listFirsts : List Row → Except PyErr (List Value)
  | [] => .ok []
  | [] :: _ => .error ⟨pyS "list index out of range", pyS "IndexError"⟩
  | (v :: _) :: rest => (listFirsts rest).map (fun vs => v :: vs)

/-- One bullet of the DESCRIBE rendering, from the row's six positional
fields (`field, type_, null, key, default, extra`). -/
def descLine (field type_ null key df extra : Value) : PyStr :=
  pyS "  • " ++ pyStrV field ++ pyS ": " ++ pyStrV type_ ++
  (if pyTruthy key then pyS " (" ++ pyStrV key ++ pyS ")" else []) ++
  (if null = Value.vStr (pyS "NO") then pyS " NOT NULL" else []) ++
  (if df ≠ Value.vNone then pyS " DEFAULT " ++ pyStrV df else []) ++
  (if pyTruthy extra then pyS " " ++ pyStrV extra else []) ++
  pyS "\n"

/-- `field, type_, null, key, default, extra = row`, then one bullet; a row
that is not a 6-tuple raises `ValueError` (CPython's exact unpacking
message is not modelled). -/
def descRow (r : Row) : Except PyErr PyStr :=
  match r with
  | [a, b, c, d, e, f] => .ok (descLine a b c d e f)
  | _ => .error ⟨pyS "values to unpack", pyS "ValueError"⟩

/-- The row loop of the DESCRIBE branch: concatenate one bullet per row,
aborting at the first malformed row. -/
def renderDescribeRows : List Row → Except PyErr PyStr
  | [] => .ok []
  | r :: rest =>
    match descRow r with
    | .error e => .error e
    | .ok line =>
      match renderDescribeRows rest with
      | .error e => .error e
      | .ok body => .ok (line ++ body)

/-- `f"DESCRIBE \x7bdb_prefix\x7d\x7btable\x7d"`, the statement the
describe branch interpolates from its raw arguments. -/
def qDescribe (database table : Option PyStr) : PyStr :=
  pyS "DESCRIBE " ++
    (if optTruthy database then database.getD [] ++ pyS "." else []) ++
    pyStrOptS table

/-- The describe branch of `MySQLSchemaTool._arun` downstream of the
executor call: render the bullets, the zero-row message, the
per-operation error line, or (for an exception, including the unpacking
`ValueError`) the outer schema-tool error line. -/
def schemaDescribeRender (ts : PyStr) (res : Except PyErr QueryResult) :
    PyStr :=
  match res with
  | .ok r =>
    if r.success then
      if r.rows.getD [] ≠ [] then
        match renderDescribeRows (r.rows.getD []) with
        | .ok body => pyS "🔍 Schema for table '" ++ ts ++ pyS "':\n" ++ body
        | .error e => pyS "❌ MySQL Schema Tool Error: " ++ e.msg
      else pyS "📋 Table '" ++ ts ++ pyS "' has no columns or doesn't exist"
    else pyS "❌ Error describing table: " ++ pyStrOptS r.error
  | .error e => pyS "❌ MySQL Schema Tool Error: " ++ e.msg

/-- `MySQLSchemaTool._arun`: three modes (list databases, list tables,
describe a table), each built on `_execute_query`; any exception reaching
the outer `try` is rendered as a schema-tool error line.
`include_data_types` is accepted and unused, as in the source. -/
def schema_arun (st : ToolState) (env : DBEnv) (database table : Option PyStr)
    (_include_data_types : Bool) : PyStr × ToolState × List Effect :=
  if ¬ optTruthy database ∧ ¬ optTruthy table then
    match _execute_query st env (pyS "SHOW DATABASES") none 100 true with
    | (.ok r, st2, tr) =>
      if r.success then
        match listFirsts (r.rows.getD []) with
        | .ok dbs =>
          (pyS "📚 Available Databases:\n" ++
             List.intercalate (pyS "\n")
               (dbs.map (fun d => pyS "  • " ++ pyStrV d)), st2, tr)
        | .error e => (pyS "❌ MySQL Schema Tool Error: " ++ e.msg, st2, tr)
      else (pyS "❌ Error listing databases: " ++ pyStrOptS r.error, st2, tr)
    | (.error e, st2, tr) => (pyS "❌ MySQL Schema Tool Error: " ++ e.msg, st2, tr)
  else if optTruthy database ∧ ¬ optTruthy table then
    match _execute_query st env (pyS "SHOW TABLES FROM " ++ database.getD [])
        none 100 true with
    | (.ok r, st2, tr) =>
      if r.success then
        match listFirsts (r.rows.getD []) with
        | .ok tables =>
          (pyS "📋 Tables in database '" ++ database.getD [] ++ pyS "':\n" ++
             List.intercalate (pyS "\n")
               (tables.map (fun t => pyS "  • " ++ pyStrV t)), st2, tr)
        | .error e => (pyS "❌ MySQL Schema Tool Error: " ++ e.msg, st2, tr)
      else (pyS "❌ Error listing tables: " ++ pyStrOptS r.error, st2, tr)
    | (.error e, st2, tr) => (pyS "❌ MySQL Schema Tool Error: " ++ e.msg, st2, tr)
  else
    (schemaDescribeRender (pyStrOptS table)
       (_execute_query st env (qDescribe database table) database 100 true).1,
     (_execute_query st env (qDescribe database table) database 100 true).2)

/-- One operation on the pool cache of a tool instance, for stating the
"at most one pool" invariant over arbitrary sequential histories. -/
inductive PoolOp where
  | acquire (create : Except PyErr Nat) : PoolOp
  | close : PoolOp

/-- The state transition of one pool operation. -/
def poolStep (st : ToolState) : PoolOp → ToolState × List Effect
  | .acquire c =>
    let r := _get_connection_pool st c
    (r.2.1, r.2.2)
  | .close => _close_connection_pool st

/-- Run a sequence of pool operations, concatenating the effect traces. -/
def runPool (st : ToolState) : List PoolOp → ToolState × List Effect
  | [] => (st, [])
  | op :: ops =>
    let r1 := poolStep st op
    let r2 := runPool r1.1 ops
    (r2.1, r1.2 ++ r2.2)

/-- Number of live pools a tool state holds (0 or 1 by construction). -/
def poolCount (st : ToolState) : Nat :=
  match st.connection_pool with
  | some _ => 1
  | none => 0

/-- Live-pool count after one effect. -/
def liveAfter1 (n : Nat) : Effect → Nat
  | .createPool _ => n + 1
  | .closePool => n - 1
  | _ => n

/-- Check, along an effect trace starting with `n` live pools, that every
pool creation happens with no pool live and every close with exactly one:
this is the "at most one pool exists at any time" discipline. -/
def liveOkFrom : Nat → List Effect → Bool
  | _, [] => true
  | n, e :: tr =>
    (match e with
     | .createPool _ => n == 0
     | .closePool => n == 1
     | _ => true) && liveOkFrom (liveAfter1 n e) tr

/-! ### Text lemmas: stripping, case mapping and substring containment -/

theorem pyIsWs_lowerChar (n : Nat) : pyIsWs (pyLowerChar n) = pyIsWs n := by
  unfold pyLowerChar pyIsWs
  split
  · rw [decide_eq_decide]; omega
  · rfl

theorem pyIsWs_upperChar (n : Nat) : pyIsWs (pyUpperChar n) = pyIsWs n := by
  unfold pyUpperChar pyIsWs
  split
  · rw [decide_eq_decide]; omega
  · rfl

theorem infix_dropWhile_aux :
    ∀ (a p b : PyStr), (∀ c, p.head? = some c → pyIsWs c = false) →
      p <:+: (a ++ p ++ b).dropWhile pyIsWs
  | [], p, b, hh => by
    cases p with
    | nil => exact List.nil_infix
    | cons c p' =>
      have hc : pyIsWs c = false := hh c rfl
      simp only [List.nil_append, List.cons_append, List.dropWhile_cons, hc]
      simpa using List.infix_append [] (c :: p') b
  | x :: a, p, b, hh => by
    simp only [List.cons_append, List.dropWhile_cons]
    split
    · exact infix_dropWhile_aux a p b hh
    · exact ⟨x :: a, b, rfl⟩

theorem infix_dropWhile (p s : PyStr)
    (hh : ∀ c, p.head? = some c → pyIsWs c = false) (h : p <:+: s) :
    p <:+: s.dropWhile pyIsWs := by
  obtain ⟨a, b, rfl⟩ := h
  exact infix_dropWhile_aux a p b hh

theorem infix_pyStrip_of (p s : PyStr)
    (hh : ∀ c, p.head? = some c → pyIsWs c = false)
    (hl : ∀ c, p.getLast? = some c → pyIsWs c = false)
    (h : p <:+: s) : p <:+: pyStrip s := by
  have h1 : p <:+: s.dropWhile pyIsWs := infix_dropWhile p s hh h
  have h2 : p.reverse <:+: (s.dropWhile pyIsWs).reverse :=
    List.reverse_infix.mpr h1
  have h3 : p.reverse <:+: ((s.dropWhile pyIsWs).reverse).dropWhile pyIsWs := by
    refine infix_dropWhile _ _ ?_ h2
    intro c hc
    rw [List.head?_reverse] at hc
    exact hl c hc
  have h4 := List.reverse_infix.mpr h3
  simpa [pyStrip] using h4

theorem pyStrip_sub (s : PyStr) : pyStrip s <:+: s := by
  have h1 : s.dropWhile pyIsWs <:+ s := List.dropWhile_suffix _
  have h2 : (s.dropWhile pyIsWs).reverse.dropWhile pyIsWs <:+
      (s.dropWhile pyIsWs).reverse := List.dropWhile_suffix _
  have h3 : pyStrip s <+: s.dropWhile pyIsWs := by
    rw [← List.reverse_suffix]
    simpa [pyStrip] using h2
  exact List.IsInfix.trans ( List.IsPrefix.isInfix h3) ( List.IsSuffix.isInfix h1)

theorem pyStrip_eq_nil_iff (s : PyStr) :
    pyStrip s = [] ↔ ∀ c ∈ s, pyIsWs c = true := by
  unfold pyStrip
  rw [List.reverse_eq_nil_iff, List.dropWhile_eq_nil_iff]
  constructor
  · intro h c hc
    have hs := List.takeWhile_append_dropWhile pyIsWs s
    rw [← hs] at hc
    rcases List.mem_append.mp hc with h1 | h1
    · exact List.mem_takeWhile_imp h1
    · exact h c (List.mem_reverse.mpr h1)
  · intro h c hc
    exact h c ((List.dropWhile_sublist pyIsWs).subset (List.mem_reverse.mp hc))

/-- Every denylist pattern is nonempty and begins and ends with a
non-whitespace character (checked by evaluation). -/
def patOk (p : PyStr) : Bool :=
  decide (p ≠ []) &&
  (match p.head? with | some c => !pyIsWs c | none => false) &&
  (match p.getLast? with | some c => !pyIsWs c | none => false)

theorem patterns_ok : dangerous_patterns.all patOk = true := by decide

theorem patterns_facts :
    ∀ p ∈ dangerous_patterns,
      p ≠ [] ∧ (∀ c, p.head? = some c → pyIsWs c = false) ∧
        (∀ c, p.getLast? = some c → pyIsWs c = false) := by
  intro p hp
  have h := List.all_eq_true.mp patterns_ok p hp
  unfold patOk at h
  simp only [Bool.and_eq_true, decide_eq_true_eq] at h
  obtain ⟨⟨hne, hh⟩, hl⟩ := h
  refine ⟨hne, ?_, ?_⟩
  · intro c hc
    rw [hc] at hh
    simpa using hh
  · intro c hc
    rw [hc] at hl
    simpa using hl

/-- A denylist pattern occurs in `v.lower()` iff it occurs in
`v.lower().strip()` (the value the source actually scans). -/
theorem pattern_mem_strip_iff (p v : PyStr) (hp : p ∈ dangerous_patterns) :
    p <:+: pyStrip (pyLower v) ↔ p <:+: pyLower v := by
  obtain ⟨hne, hh, hl⟩ := patterns_facts p hp
  constructor
  · intro h
    exact h.trans (pyStrip_sub _)
  · intro h
    exact infix_pyStrip_of p _ hh hl h

/-! ### C1: the query validator -/

/-- C1: `validate_query` accepts a SQL text iff it is non-empty after
trimming whitespace and its lowercased form contains none of the fixed
denylist substrings; any text whose lowercased form contains a denylisted
substring is rejected with an error message naming an offending pattern
contained in the text (the first such pattern in denylist order; in
particular, when exactly one pattern occurs, the message names that
pattern). -/
theorem validate_query_spec (v : PyStr) :
    (validate_query v = .ok v ↔
      (pyStrip v ≠ [] ∧ ∀ p ∈ dangerous_patterns, ¬ p <:+: pyLower v))
    ∧ (∀ p ∈ dangerous_patterns, p <:+: pyLower v →
        ∃ q, q ∈ dangerous_patterns ∧ q <:+: pyLower v ∧
          validate_query v = .error (dangerousMsg q))
    ∧ (∀ p ∈ dangerous_patterns, p <:+: pyLower v →
        (∀ q ∈ dangerous_patterns, q <:+: pyLower v → q = p) →
        validate_query v = .error (dangerousMsg p)) := by
  have key : ∀ p ∈ dangerous_patterns, p <:+: pyLower v →
      ∃ q, q ∈ dangerous_patterns ∧ q <:+: pyLower v ∧
        validate_query v = .error (dangerousMsg q) := by
    intro p hp hinf
    have hsnil : pyStrip v ≠ [] := by
      intro hnil
      have hws := (pyStrip_eq_nil_iff v).mp hnil
      obtain ⟨hne, hh, -⟩ := patterns_facts p hp
      obtain ⟨a, b, hab⟩ := hinf
      cases p with
      | nil => exact hne rfl
      | cons c p' =>
        have hc : c ∈ pyLower v := by
          rw [← hab]; simp
        obtain ⟨d, hd, hdc⟩ := List.mem_map.mp hc
        have : pyIsWs c = true := by
          rw [← hdc, pyIsWs_lowerChar]; exact hws d hd
        rw [hh c rfl] at this
        exact Bool.false_ne_true this
    have hguard : ¬ (v = [] ∨ pyStrip v = []) := by
      rintro (rfl | hnil)
      · exact hsnil rfl
      · exact hsnil hnil
    have hstrip : p <:+: pyStrip (pyLower v) :=
      (pattern_mem_strip_iff p v hp).mpr hinf
    unfold validate_query
    rw [if_neg hguard]
    rcases hfind : dangerous_patterns.find?
        (fun q => decide (q <:+: pyStrip (pyLower v))) with - | q
    · exfalso
      have := List.find?_eq_none.mp hfind p hp
      simp only [decide_eq_true_eq] at this
      exact this hstrip
    · have hq : q ∈ dangerous_patterns := List.mem_of_find?_eq_some hfind
      have hqi : q <:+: pyStrip (pyLower v) := by
        have := List.find?_some hfind
        simpa using this
      exact ⟨q, hq, (pattern_mem_strip_iff q v hq).mp hqi, rfl⟩
  refine ⟨⟨?_, ?_⟩, key, ?_⟩
  · intro h
    unfold validate_query at h
    split at h
    · exact absurd h (by simp)
    · rename_i hguard
      constructor
      · intro hnil
        exact hguard (Or.inr hnil)
      · intro p hp hinf
        rcases hfind : dangerous_patterns.find?
            (fun q => decide (q <:+: pyStrip (pyLower v))) with - | q
        · have := List.find?_eq_none.mp hfind p hp
          simp only [decide_eq_true_eq] at this
          exact this ((pattern_mem_strip_iff p v hp).mpr hinf)
        · rw [hfind] at h
          exact absurd h (by simp)
  · rintro ⟨hnil, hno⟩
    have hguard : ¬ (v = [] ∨ pyStrip v = []) := by
      rintro (rfl | h)
      · exact hnil rfl
      · exact hnil h
    unfold validate_query
    rw [if_neg hguard]
    have hfind : dangerous_patterns.find?
        (fun q => decide (q <:+: pyStrip (pyLower v))) = none := by
      rw [List.find?_eq_none]
      intro q hq
      simp only [decide_eq_true_eq]
      intro hcon
      exact hno q hq ((pattern_mem_strip_iff q v hq).mp hcon)
    rw [hfind]
  · intro p hp hinf huniq
    obtain ⟨q, hq, hql, he⟩ := key p hp hinf
    rw [huniq q hq hql] at he
    exact he

/-- Witness for C1 at the concrete input `DROP TABLE users`: the pattern
`drop table` is denylisted and contained in the lowercased text, and the
validator rejects with a message naming an offending pattern. -/
theorem validate_query_spec_witness :
    (pyS "drop table" ∈ dangerous_patterns ∧
      pyS "drop table" <:+: pyLower (pyS "DROP TABLE users")) ∧
    ∃ q, q ∈ dangerous_patterns ∧ q <:+: pyLower (pyS "DROP TABLE users") ∧
      validate_query (pyS "DROP TABLE users") = .error (dangerousMsg q) :=
  ⟨⟨by decide, by decide⟩,
   (validate_query_spec (pyS "DROP TABLE users")).2.1 (pyS "drop table")
     (by decide) (by decide)⟩

/-! ### C7: statement-type classification -/

theorem splitAux_map_upper (s : PyStr) : ∀ cur : PyStr,
    splitAux (pyUpper s) (pyUpper cur) = (splitAux s cur).map pyUpper := by
  induction s with
  | nil =>
    intro cur
    by_cases h : cur = []
    · subst h; rfl
    · have h2 : pyUpper cur ≠ [] := by simpa [pyUpper] using h
      simp [splitAux, h, h2, pyUpper]
  | cons c rest ih =>
    intro cur
    show splitAux (pyUpperChar c :: pyUpper rest) (pyUpper cur) = _
    by_cases hws : pyIsWs c = true
    · have hws2 : pyIsWs (pyUpperChar c) = true := by
        rw [pyIsWs_upperChar]; exact hws
      by_cases h : cur = []
      · subst h
        simp only [splitAux, hws, hws2, if_true, if_pos rfl, pyUpper,
          List.map_nil]
        exact ih []
      · have h2 : pyUpper cur ≠ [] := by simpa [pyUpper] using h
        simp only [splitAux, hws, hws2, if_true, if_neg h, if_neg h2]
        have := ih []
        simp only [pyUpper, List.map_nil] at this
        simp [this, pyUpper, List.map_reverse]
    · have hws2 : pyIsWs (pyUpperChar c) = false := by
        rw [pyIsWs_upperChar]; simpa using hws
      simp only [splitAux, hws, hws2, Bool.false_eq_true, if_false]
      exact ih (c :: cur)

theorem pySplitWs_upper (s : PyStr) :
    pySplitWs (pyUpper s) = (pySplitWs s).map pyUpper := by
  have h := splitAux_map_upper s []
  simpa [pySplitWs, pyUpper] using h

theorem splitAux_allWs : ∀ (t : PyStr), (∀ c ∈ t, pyIsWs c = true) →
    ∀ cur, splitAux t cur = if cur = [] then [] else [cur.reverse]
  | [], _, _ => rfl
  | c :: rest, ht, cur => by
    have hc : pyIsWs c = true := ht c (List.mem_cons_self c rest)
    have ih := splitAux_allWs rest (fun d hd => ht d (List.mem_cons_of_mem c hd))
    by_cases h : cur = []
    · subst h; simp [splitAux, hc, ih []]
    · simp [splitAux, hc, h, ih []]

theorem splitAux_append_tailWs :
    ∀ (s t : PyStr), (∀ c ∈ t, pyIsWs c = true) →
      ∀ cur, splitAux (s ++ t) cur = splitAux s cur
  | [], t, ht, cur => by
    rw [List.nil_append, splitAux_allWs t ht cur]; rfl
  | c :: rest, t, ht, cur => by
    have ih := splitAux_append_tailWs rest t ht
    by_cases hws : pyIsWs c = true
    · by_cases h : cur = [] <;> simp [splitAux, hws, h, ih]
    · simp [splitAux, hws, ih]

theorem splitAux_dropWhile (s : PyStr) :
    splitAux (s.dropWhile pyIsWs) [] = splitAux s [] := by
  induction s with
  | nil => rfl
  | cons c rest ih =>
    by_cases hws : pyIsWs c = true
    · rw [List.dropWhile_cons, if_pos hws]
      rw [ih]
      simp [splitAux, hws]
    · simp [List.dropWhile_cons, hws]

theorem strip_decomp (s : PyStr) :
    ∃ t, (∀ c ∈ t, pyIsWs c = true) ∧ s.dropWhile pyIsWs = pyStrip s ++ t := by
  refine ⟨(List.takeWhile pyIsWs (s.dropWhile pyIsWs).reverse).reverse,
    fun c hc => List.mem_takeWhile_imp (List.mem_reverse.mp hc), ?_⟩
  conv_lhs => rw [← List.reverse_reverse (s.dropWhile pyIsWs),
    ← List.takeWhile_append_dropWhile pyIsWs (s.dropWhile pyIsWs).reverse]
  rw [List.reverse_append]
  rfl

theorem pySplitWs_strip (s : PyStr) : pySplitWs (pyStrip s) = pySplitWs s := by
  obtain ⟨t, ht, hdecomp⟩ := strip_decomp s
  unfold pySplitWs
  rw [← splitAux_dropWhile s, hdecomp, splitAux_append_tailWs _ t ht]

/-- The first whitespace-delimited token of a text, before any case
mapping (the token the specification's classification talks about). -/
def firstToken (q : PyStr) : Option PyStr := (pySplitWs q).head?

/-- The `query_type` tag the executor computes is exactly the uppercased
first whitespace-delimited token. -/
theorem queryTypeOf_eq (q : PyStr) :
    queryTypeOf q = (firstToken q).map pyUpper := by
  unfold queryTypeOf firstToken
  rw [pySplitWs_upper (pyStrip q), pySplitWs_strip q, List.head?_map]

/-- C7: the statement-type tag is the uppercased first
whitespace-delimited token of the trimmed text, and the classification is
determined solely by that token compared case-insensitively: `SELECT`
classifies as read, `INSERT`/`UPDATE`/`DELETE` as mutation,
`CREATE`/`ALTER`/`DROP` as definition, any other leading token as other;
in particular `select * from t` and `SELECT * FROM t` classify
identically (both as read). -/
theorem classify_spec (q : PyStr) :
    (queryTypeOf q = (firstToken q).map pyUpper)
    ∧ (∀ q2, (firstToken q).map pyUpper = (firstToken q2).map pyUpper →
        queryTypeOf q = queryTypeOf q2 ∧ classifyQuery q = classifyQuery q2)
    ∧ ((firstToken q).map pyUpper = some (pyS "SELECT") →
        classifyQuery q = some .read)
    ∧ (∀ t, (firstToken q).map pyUpper = some t →
        t = pyS "INSERT" ∨ t = pyS "UPDATE" ∨ t = pyS "DELETE" →
        classifyQuery q = some .mutation)
    ∧ (∀ t, (firstToken q).map pyUpper = some t →
        t = pyS "CREATE" ∨ t = pyS "ALTER" ∨ t = pyS "DROP" →
        classifyQuery q = some .definition)
    ∧ (∀ t, (firstToken q).map pyUpper = some t →
        t ∉ [pyS "SELECT", pyS "INSERT", pyS "UPDATE", pyS "DELETE",
             pyS "CREATE", pyS "ALTER", pyS "DROP"] →
        classifyQuery q = some .other)
    ∧ (classifyQuery (pyS "select * from t") = some .read ∧
        classifyQuery (pyS "SELECT * FROM t") = some .read) := by
  refine ⟨queryTypeOf_eq q, ?_, ?_, ?_, ?_, ?_, by decide, by decide⟩
  · intro q2 h
    have he : queryTypeOf q = queryTypeOf q2 := by
      rw [queryTypeOf_eq, queryTypeOf_eq, h]
    exact ⟨he, by unfold classifyQuery; rw [he]⟩
  · intro h
    unfold classifyQuery
    rw [queryTypeOf_eq, h]
    rfl
  · rintro t h (rfl | rfl | rfl) <;>
      (unfold classifyQuery; rw [queryTypeOf_eq, h]; rfl)
  · rintro t h (rfl | rfl | rfl) <;>
      (unfold classifyQuery; rw [queryTypeOf_eq, h]; rfl)
  · intro t h hmem
    simp only [List.mem_cons, List.not_mem_nil, or_false, not_or] at hmem
    obtain ⟨h1, h2, h3, h4, h5, h6, h7⟩ := hmem
    unfold classifyQuery
    rw [queryTypeOf_eq, h]
    show some (classOfTag t) = some StatementClass.other
    unfold classOfTag
    rw [if_neg h1, if_neg (by tauto), if_neg (by tauto)]

/-- Witness for C7: applying the theorem to `select * from t` against
`SELECT * from t`, whose first tokens agree case-insensitively. -/
theorem classify_spec_witness :
    (firstToken (pyS "select * from t")).map pyUpper =
        (firstToken (pyS "SELECT * from t")).map pyUpper ∧
      queryTypeOf (pyS "select * from t") = queryTypeOf (pyS "SELECT * from t") ∧
      classifyQuery (pyS "select * from t") =
        classifyQuery (pyS "SELECT * from t") :=
  ⟨by decide,
   (classify_spec (pyS "select * from t")).2.1 (pyS "SELECT * from t") (by decide)⟩

/-! ### C8: the connection-pool manager -/

theorem liveOkFrom_append (tr1 tr2 : List Effect) (n : Nat) :
    liveOkFrom n (tr1 ++ tr2) =
      (liveOkFrom n tr1 && liveOkFrom (tr1.foldl liveAfter1 n) tr2) := by
  induction tr1 generalizing n with
  | nil => simp [liveOkFrom]
  | cons e tr ih => simp [liveOkFrom, ih, Bool.and_assoc]

theorem poolStep_live (st : ToolState) (op : PoolOp) :
    liveOkFrom (poolCount st) (poolStep st op).2 = true ∧
      (poolStep st op).2.foldl liveAfter1 (poolCount st) =
        poolCount (poolStep st op).1 := by
  cases op with
  | acquire c =>
    cases hst : st.connection_pool with
    | some p =>
      simp [poolStep, _get_connection_pool, hst, poolCount, liveOkFrom]
    | none =>
      cases c with
      | ok p =>
        simp [poolStep, _get_connection_pool, hst, poolCount, liveOkFrom,
          liveAfter1]
      | error e =>
        simp [poolStep, _get_connection_pool, hst, poolCount, liveOkFrom]
  | close =>
    cases hst : st.connection_pool with
    | some p =>
      simp [poolStep, _close_connection_pool, hst, poolCount, liveOkFrom,
        liveAfter1]
    | none =>
      simp [poolStep, _close_connection_pool, hst, poolCount, liveOkFrom]

theorem runPool_live (ops : List PoolOp) : ∀ st : ToolState,
    liveOkFrom (poolCount st) (runPool st ops).2 = true ∧
      (runPool st ops).2.foldl liveAfter1 (poolCount st) =
        poolCount (runPool st ops).1 := by
  induction ops with
  | nil => intro st; simp [runPool, liveOkFrom]
  | cons op ops ih =>
    intro st
    obtain ⟨h1, h2⟩ := poolStep_live st op
    obtain ⟨h3, h4⟩ := ih (poolStep st op).1
    have htr : (runPool st (op :: ops)).2 =
        (poolStep st op).2 ++ (runPool (poolStep st op).1 ops).2 := rfl
    have hst : (runPool st (op :: ops)).1 = (runPool (poolStep st op).1 ops).1 :=
      rfl
    constructor
    · rw [htr, liveOkFrom_append, h1, h2, h3]
      rfl
    · rw [htr, hst, List.foldl_append, h2, h4]

/-- C8: viewing `self._connection_pool` as explicit state, acquisition
returns an existing pool unchanged, otherwise creates exactly one and
caches it; closing clears the cache and is a no-op when no pool exists;
and along any sequential sequence of acquire/close operations started with
no pool, every pool creation happens with no pool live and every close
with exactly one, so at most one pool exists at any time. -/
theorem pool_manager_spec (st : ToolState) (c : Except PyErr Nat) (p : Nat)
    (ops : List PoolOp) :
    (st.connection_pool = some p → _get_connection_pool st c = (.ok p, st, []))
    ∧ (st.connection_pool = none → c = .ok p →
        _get_connection_pool st c =
          (.ok p, { connection_pool := some p }, [.createPool p]))
    ∧ ((_close_connection_pool st).1.connection_pool = none)
    ∧ (st.connection_pool = none → _close_connection_pool st = (st, []))
    ∧ (st.connection_pool = none →
        liveOkFrom 0 (runPool st ops).2 = true) := by
  refine ⟨?_, ?_, ?_, ?_, ?_⟩
  · intro h
    simp [_get_connection_pool, h]
  · intro h hc
    subst hc
    simp [_get_connection_pool, h]
  · unfold _close_connection_pool
    cases hst : st.connection_pool <;> simp [hst]
  · intro h
    simp [_close_connection_pool, h]
  · intro h
    have := (runPool_live ops st).1
    rwa [show poolCount st = 0 by simp [poolCount, h]] at this

/-- Witness for C8: a concrete acquire/close history from the empty state,
with creation, idempotent close, and the at-most-one-pool check all
evaluated. -/
theorem pool_manager_spec_witness :
    _get_connection_pool ⟨none⟩ (.ok 3) = (.ok 3, ⟨some 3⟩, [.createPool 3]) ∧
    _close_connection_pool ⟨none⟩ = (⟨none⟩, []) ∧
    liveOkFrom 0 (runPool ⟨none⟩
      [.acquire (.ok 3), .acquire (.ok 9), .close, .close,
       .acquire (.ok 4)]).2 = true := by
  obtain ⟨-, h2, -, h4, h5⟩ := pool_manager_spec ⟨none⟩ (.ok 3) 3
    [.acquire (.ok 3), .acquire (.ok 9), .close, .close, .acquire (.ok 4)]
  exact ⟨h2 rfl rfl, h4 rfl, h5 rfl⟩

/-! ### C3 and C2: the dispatch path and the missing validation -/

theorem execBody_mem_exec (env : DBEnv) (q : PyStr) (limit : Int) (fm : Bool) :
    Effect.execSQL q ∈ (execBody env q none limit fm).2 := by
  unfold execBody execAfterUse
  cases env.execResult with
  | error e => simp
  | ok _ =>
    cases hqt : queryTypeOf q with
    | none => simp [hqt]
    | some qt =>
      simp only [hqt]
      unfold shapeStep
      cases classOfTag qt <;> cases env.fetchResult <;> simp

theorem execQuery_trace (st : ToolState) (env : DBEnv) (q : PyStr)
    (database : Option PyStr) (limit : Int) (fm : Bool) (p : Nat)
    (hpool : st.connection_pool = none) (hc : env.createPoolResult = .ok p)
    (ha : env.acquireResult = .ok ()) :
    (_execute_query st env q database limit fm).2.1 = ⟨some p⟩ ∧
    (_execute_query st env q database limit fm).2.2 =
      Effect.createPool p :: Effect.acquireConn ::
        (execBody env q database limit fm).2 := by
  unfold _execute_query
  rw [show _get_connection_pool st env.createPoolResult =
      (.ok p, (⟨some p⟩ : ToolState), [.createPool p]) from by
    simp [_get_connection_pool, hpool, hc]]
  rw [ha]
  cases hbody : execBody env q database limit fm with
  | mk res btr => cases res <;> simp

theorem arun_state_trace (st : ToolState) (env : DBEnv) (q : PyStr)
    (db : Option PyStr) (limit : Int) (fm : Bool) :
    (_arun st env q db limit fm).2 = (_execute_query st env q db limit fm).2 := by
  unfold _arun
  cases h : _execute_query st env q db limit fm with
  | mk res rest =>
    cases rest with
    | mk st2 tr => cases res <;> simp

/-- C3: the MCP dispatch handler passes the raw `query` argument straight
to `MySQLTool._arun`, and neither `_arun` nor `_execute_query` performs any
empty-query or denylist validation: for every query text whatsoever
(including denylisted or empty ones), when the driver cooperates the call
creates a connection pool and executes the text on a cursor.  The denylist
lives only in the `MySQLQueryInput` schema, which this path never
consults. -/
theorem dispatch_no_validation (st : ToolState) (env : DBEnv) (q : PyStr)
    (p : Nat) (hpool : st.connection_pool = none)
    (hc : env.createPoolResult = .ok p)
    (ha : env.acquireResult = .ok ()) :
    handle_call_tool_mysql_query st env ⟨some q, none, none, none⟩ =
      _arun st env q none 100 true
    ∧ Effect.createPool p ∈
        (handle_call_tool_mysql_query st env ⟨some q, none, none, none⟩).2.2
    ∧ Effect.execSQL q ∈
        (handle_call_tool_mysql_query st env ⟨some q, none, none, none⟩).2.2
    ∧ (handle_call_tool_mysql_query st env
        ⟨some q, none, none, none⟩).2.1.connection_pool = some p := by
  obtain ⟨hst, htr⟩ := execQuery_trace st env q none 100 true p hpool hc ha
  have harun : (handle_call_tool_mysql_query st env
      ⟨some q, none, none, none⟩).2 = (_execute_query st env q none 100 true).2 :=
    arun_state_trace st env q none 100 true
  refine ⟨rfl, ?_, ?_, ?_⟩
  · rw [show (handle_call_tool_mysql_query st env
        ⟨some q, none, none, none⟩).2.2 = (_execute_query st env q none 100 true).2.2 from
      congrArg Prod.snd harun, htr]
    simp
  · rw [show (handle_call_tool_mysql_query st env
        ⟨some q, none, none, none⟩).2.2 = (_execute_query st env q none 100 true).2.2 from
      congrArg Prod.snd harun, htr]
    simp [execBody_mem_exec]
  · rw [show (handle_call_tool_mysql_query st env
        ⟨some q, none, none, none⟩).2.1 = (_execute_query st env q none 100 true).2.1 from
      congrArg Prod.fst harun, hst]

/-- A driver environment in which every operation succeeds and the
statement produces no rows (as a DDL statement would). -/
def envOkDDL : DBEnv :=
  { now := 0, createPoolResult := .ok 1, acquireResult := .ok (),
    useResult := .ok (), execResult := .ok (), resultSet := [],
    fetchResult := .ok (), description := none, rowcount := 0,
    lastrowid := none }

/-- Witness for C3 at the denylisted query `drop table users`: the dispatch
path still creates a pool and executes it. -/
theorem dispatch_no_validation_witness :
    Effect.createPool 1 ∈ (handle_call_tool_mysql_query ⟨none⟩ envOkDDL
      ⟨some (pyS "drop table users"), none, none, none⟩).2.2 ∧
    Effect.execSQL (pyS "drop table users") ∈
      (handle_call_tool_mysql_query ⟨none⟩ envOkDDL
        ⟨some (pyS "drop table users"), none, none, none⟩).2.2 := by
  obtain ⟨-, h2, h3, -⟩ := dispatch_no_validation ⟨none⟩ envOkDDL
    (pyS "drop table users") 1 rfl rfl rfl
  exact ⟨h2, h3⟩

/-- C2 (evidence of the code bug): for the query `DROP TABLE users`
submitted through the `mysql_query` dispatch path with no pool in
existence, the validator would reject the text (naming `drop table`), but
the dispatch path never invokes it: a connection pool is created, the
statement is executed on a cursor, and the call reports successful DDL
execution. -/
theorem drop_table_dispatch_bug :
    validate_query (pyS "DROP TABLE users") =
      .error (dangerousMsg (pyS "drop table"))
    ∧ (handle_call_tool_mysql_query ⟨none⟩ envOkDDL
        ⟨some (pyS "DROP TABLE users"), none, none, none⟩).2.1.connection_pool =
        some 1
    ∧ Effect.createPool 1 ∈ (handle_call_tool_mysql_query ⟨none⟩ envOkDDL
        ⟨some (pyS "DROP TABLE users"), none, none, none⟩).2.2
    ∧ Effect.execSQL (pyS "DROP TABLE users") ∈
        (handle_call_tool_mysql_query ⟨none⟩ envOkDDL
          ⟨some (pyS "DROP TABLE users"), none, none, none⟩).2.2
    ∧ (handle_call_tool_mysql_query ⟨none⟩ envOkDDL
        ⟨some (pyS "DROP TABLE users"), none, none, none⟩).1 =
        pyS "✅ MySQL DROP Query Executed Successfully\nQuery: DROP TABLE users\nDDL statement executed successfully\n" := by
  exact ⟨by decide, by decide, by decide, by decide, by decide⟩

/-! ### C5: execution errors become failure records -/

/-- Pool acquisition and connection/cursor acquisition succeed (the part of
`_execute_query` that precedes the guarded `try` region). -/
def setupOk (st : ToolState) (env : DBEnv) : Prop :=
  (st.connection_pool ≠ none ∨ ∃ p, env.createPoolResult = .ok p) ∧
    env.acquireResult = .ok ()

theorem execQuery_body (st : ToolState) (env : DBEnv) (q : PyStr)
    (db : Option PyStr) (limit : Int) (fm : Bool) (h : setupOk st env) :
    ∃ st2 tr0,
      _execute_query st env q db limit fm =
        (match (execBody env q db limit fm).1 with
         | .ok r => .ok r
         | .error e => .ok (failureRecord q e env.now),
         st2, tr0 ++ (execBody env q db limit fm).2) := by
  obtain ⟨hpool, ha⟩ := h
  unfold _execute_query
  cases hst : st.connection_pool with
  | some p =>
    refine ⟨st, [Effect.acquireConn], ?_⟩
    rw [show _get_connection_pool st env.createPoolResult = (.ok p, st, [])
      from by simp [_get_connection_pool, hst]]
    rw [ha]
    cases hb : execBody env q db limit fm with
    | mk res btr => cases res <;> simp [hb]
  | none =>
    have hc : ∃ p, env.createPoolResult = .ok p := by
      rcases hpool with h1 | h2
      · exact absurd hst h1
      · exact h2
    obtain ⟨p, hc⟩ := hc
    refine ⟨⟨some p⟩, [Effect.createPool p, Effect.acquireConn], ?_⟩
    rw [show _get_connection_pool st env.createPoolResult =
        (.ok p, (⟨some p⟩ : ToolState), [.createPool p]) from by
      simp [_get_connection_pool, hst, hc]]
    rw [ha]
    cases hb : execBody env q db limit fm with
    | mk res btr => cases res <;> simp [hb]

/-- C5: `_execute_query` propagates an exception only when pool creation
or connection acquisition fails (which happens before the guarded region);
every failure raised inside the guarded region — switching database,
executing the statement, classifying it, or fetching — is caught and
returned as a failure-shaped record carrying `success = false`, the error
message, and the error-type label taken from the exception's class name.
The third conjunct instances this for a plain SQL execution error. -/
theorem exec_error_spec (st : ToolState) (env : DBEnv) (q : PyStr)
    (db : Option PyStr) (limit : Int) (fm : Bool) :
    (∀ e st2 tr, _execute_query st env q db limit fm = (.error e, st2, tr) →
      (st.connection_pool = none ∧ env.createPoolResult = .error e) ∨
        env.acquireResult = .error e)
    ∧ (setupOk st env → ∀ e tr, execBody env q db limit fm = (.error e, tr) →
        ∃ st2 tr2, _execute_query st env q db limit fm =
          (.ok { query := q, success := false, timestamp := env.now,
                 error := some e.msg, error_type := some e.clsName }, st2, tr2))
    ∧ (setupOk st env → db = none → ∀ e, env.execResult = .error e →
        ∃ st2 tr2, _execute_query st env q db limit fm =
          (.ok { query := q, success := false, timestamp := env.now,
                 error := some e.msg, error_type := some e.clsName }, st2, tr2)) := by
  have hguarded : setupOk st env →
      ∀ e tr, execBody env q db limit fm = (.error e, tr) →
      ∃ st2 tr2, _execute_query st env q db limit fm =
        (.ok (failureRecord q e env.now), st2, tr2) := by
    intro hs e tr hbody
    obtain ⟨st2, tr0, heq⟩ := execQuery_body st env q db limit fm hs
    rw [hbody] at heq
    exact ⟨st2, tr0 ++ tr, heq⟩
  refine ⟨?_, hguarded, ?_⟩
  · intro e st2 tr h
    unfold _execute_query at h
    cases hst : st.connection_pool with
    | some p =>
      rw [show _get_connection_pool st env.createPoolResult = (.ok p, st, [])
        from by simp [_get_connection_pool, hst]] at h
      cases ha : env.acquireResult with
      | error ea =>
        rw [ha] at h
        simp only [Prod.mk.injEq, Except.error.injEq] at h
        exact Or.inr (by rw [h.1])
      | ok u =>
        cases u
        rw [ha] at h
        cases hb : execBody env q db limit fm with
        | mk res btr =>
          rw [hb] at h
          cases res <;> simp at h
    | none =>
      cases hc : env.createPoolResult with
      | error ec =>
        rw [show _get_connection_pool st env.createPoolResult =
            (.error ec, st, []) from by
          simp [_get_connection_pool, hst, hc]] at h
        simp only [Prod.mk.injEq, Except.error.injEq] at h
        exact Or.inl ⟨rfl, by rw [h.1]⟩
      | ok p =>
        rw [show _get_connection_pool st env.createPoolResult =
            (.ok p, (⟨some p⟩ : ToolState), [.createPool p]) from by
          simp [_get_connection_pool, hst, hc]] at h
        cases ha : env.acquireResult with
        | error ea =>
          rw [ha] at h
          simp only [Prod.mk.injEq, Except.error.injEq] at h
          exact Or.inr (by rw [h.1])
        | ok u =>
          cases u
          rw [ha] at h
          cases hb : execBody env q db limit fm with
          | mk res btr =>
            rw [hb] at h
            cases res <;> simp at h
  · intro hs hdb e hexec
    subst hdb
    refine hguarded hs e [Effect.execSQL q] ?_
    show execAfterUse env q limit fm [] = (.error e, [Effect.execSQL q])
    unfold execAfterUse
    rw [hexec]
    rfl

/-- A driver environment in which the statement execution itself raises a
SQL error. -/
def envSqlErr : DBEnv :=
  { now := 5, createPoolResult := .ok 1, acquireResult := .ok (),
    useResult := .ok (),
    execResult := .error ⟨pyS "You have an error in your SQL syntax",
      pyS "ProgrammingError"⟩,
    resultSet := [], fetchResult := .ok (), description := none,
    rowcount := 0, lastrowid := none }

/-- Witness for C5: a malformed statement whose execution raises is turned
into a failure-shaped record (no exception escapes). -/
theorem exec_error_spec_witness :
    ∃ st2 tr2, _execute_query ⟨none⟩ envSqlErr (pyS "SELEC 1") none 100 true =
      (.ok { query := pyS "SELEC 1", success := false, timestamp := 5,
             error := some (pyS "You have an error in your SQL syntax"),
             error_type := some (pyS "ProgrammingError") }, st2, tr2) :=
  (exec_error_spec ⟨none⟩ envSqlErr (pyS "SELEC 1") none 100 true).2.2
    ⟨Or.inr ⟨1, rfl⟩, rfl⟩ rfl _ rfl

/-! ### C4: the event stream -/

theorem execQuery_ok_cases (st : ToolState) (env : DBEnv) (q : PyStr)
    (db : Option PyStr) (limit : Int) (fm : Bool) (r : QueryResult)
    (st2 : ToolState) (tr : List Effect)
    (h : _execute_query st env q db limit fm = (.ok r, st2, tr)) :
    (∃ btr, execBody env q db limit fm = (.ok r, btr)) ∨
      ∃ e, r = failureRecord q e env.now := by
  unfold _execute_query at h
  cases hg : _get_connection_pool st env.createPoolResult with
  | mk res rest =>
    cases rest with
    | mk stg trg =>
      rw [hg] at h
      cases res with
      | error e => simp at h
      | ok p =>
        cases ha : env.acquireResult with
        | error ea => rw [ha] at h; simp at h
        | ok u =>
          cases u
          rw [ha] at h
          cases hb : execBody env q db limit fm with
          | mk bres btr =>
            rw [hb] at h
            cases bres with
            | ok rb =>
              simp only [Prod.mk.injEq, Except.ok.injEq] at h
              exact Or.inl ⟨btr, by rw [h.1]⟩
            | error e =>
              simp only [Prod.mk.injEq, Except.ok.injEq] at h
              exact Or.inr ⟨e, h.1.symm⟩

theorem execBody_ok_select_shape (env : DBEnv) (q : PyStr) (db : Option PyStr)
    (limit : Int) (fm : Bool) (r : QueryResult) (btr : List Effect)
    (h : execBody env q db limit fm = (.ok r, btr))
    (hsel : r.query_type = some (pyS "SELECT")) :
    ∃ l, r.rows = some l ∧ r.row_count = some l.length := by
  have hAfter : ∀ tr0, execAfterUse env q limit fm tr0 = (.ok r, btr) →
      ∃ l, r.rows = some l ∧ r.row_count = some l.length := by
    intro tr0 ha
    unfold execAfterUse at ha
    split at ha
    · exact absurd ha (by simp)
    · split at ha
      · exact absurd ha (by simp)
      · rename_i qt hqt
        unfold shapeStep at ha
        split at ha
        · split at ha
          · exact absurd ha (by simp)
          · simp only [Prod.mk.injEq, Except.ok.injEq] at ha
            exact ⟨env.resultSet.take limit.toNat, by rw [← ha.1]; rfl,
              by rw [← ha.1]; rfl⟩
        · rename_i hcls
          simp only [Prod.mk.injEq, Except.ok.injEq] at ha
          exfalso
          rw [← ha.1] at hsel
          have hqt2 : qt = pyS "SELECT" := by simpa [mutationRecord] using hsel
          rw [hqt2] at hcls
          exact absurd hcls (by decide)
        · rename_i hcls
          simp only [Prod.mk.injEq, Except.ok.injEq] at ha
          exfalso
          rw [← ha.1] at hsel
          have hqt2 : qt = pyS "SELECT" := by simpa [ddlRecord] using hsel
          rw [hqt2] at hcls
          exact absurd hcls (by decide)
        · split at ha
          · exact absurd ha (by simp)
          · simp only [Prod.mk.injEq, Except.ok.injEq] at ha
            exact ⟨env.resultSet, by rw [← ha.1]; rfl, by rw [← ha.1]; rfl⟩
  cases db with
  | none =>
    rw [show execBody env q none limit fm = execAfterUse env q limit fm []
      from rfl] at h
    exact hAfter [] h
  | some d =>
    rw [show execBody env q (some d) limit fm =
        (if d = [] then execAfterUse env q limit fm []
         else match env.useResult with
           | .error e => (.error e, [.execSQL (pyS "USE " ++ d)])
           | .ok _ => execAfterUse env q limit fm
               [.execSQL (pyS "USE " ++ d)]) from rfl] at h
    by_cases hd : d = []
    · rw [if_pos hd] at h
      exact hAfter [] h
    · rw [if_neg hd] at h
      split at h
      · exact absurd h (by simp)
      · exact hAfter _ h

theorem execQuery_ok_select_shape (st : ToolState) (env : DBEnv) (q : PyStr)
    (db : Option PyStr) (limit : Int) (fm : Bool) (r : QueryResult)
    (st2 : ToolState) (tr : List Effect)
    (h : _execute_query st env q db limit fm = (.ok r, st2, tr))
    (hs : r.success = true) (hsel : r.query_type = some (pyS "SELECT")) :
    ∃ l, r.rows = some l ∧ r.row_count = some l.length := by
  rcases execQuery_ok_cases st env q db limit fm r st2 tr h with ⟨btr, hb⟩ | ⟨e, hf⟩
  · exact execBody_ok_select_shape env q db limit fm r btr hb hsel
  · exfalso
    rw [hf] at hs
    simp [failureRecord] at hs

/-- C4: for every tool-call outcome, the event stream is a single error
event exactly when `_execute_query` itself raises; otherwise it is exactly
one metadata event, then a middle consisting solely of row events, then
exactly one summary event, where the middle is empty unless the record is
a successful SELECT, in which case it carries one event per returned row,
indexed `0..N-1` in result order with `N` the recorded row count. -/
theorem astream_events_spec (st : ToolState) (env : DBEnv) (input : PyStr)
    (cfg : Option PyStr) (limit : Int) (fm : Bool) :
    (∀ e st2 tr, _execute_query st env input cfg limit fm = (.error e, st2, tr) →
      (astream_events st env input cfg limit fm).1 = [.error e.msg e.clsName])
    ∧ (∀ r st2 tr, _execute_query st env input cfg limit fm = (.ok r, st2, tr) →
        ∃ mid,
          (astream_events st env input cfg limit fm).1 =
            metadataEvt r :: (mid ++ [summaryEvt r])
          ∧ (∀ ev ∈ mid, ∃ i row, ev = StreamEvent.row i row)
          ∧ (¬(r.success = true ∧ r.query_type = some (pyS "SELECT")) → mid = [])
          ∧ (r.success = true → r.query_type = some (pyS "SELECT") →
              ∃ l, r.rows = some l ∧ r.row_count = some l.length ∧
                mid.length = l.length ∧
                ∀ i v, l[i]? = some v →
                  mid[i]? = some (StreamEvent.row i v))) := by
  constructor
  · intro e st2 tr h
    unfold astream_events
    rw [h]
  · intro r st2 tr h
    unfold astream_events
    rw [h]
    refine ⟨if r.success = true ∧ r.query_type = some (pyS "SELECT") then
        (r.rows.getD []).enum.map (fun p => StreamEvent.row p.1 p.2)
      else [], rfl, ?_, ?_, ?_⟩
    · intro ev hev
      by_cases hg : r.success = true ∧ r.query_type = some (pyS "SELECT")
      · rw [if_pos hg] at hev
        obtain ⟨p, -, hp⟩ := List.mem_map.mp hev
        exact ⟨p.1, p.2, hp.symm⟩
      · rw [if_neg hg] at hev
        cases hev
    · intro hg
      rw [if_neg hg]
    · intro hs hsel
      obtain ⟨l, hrows, hcount⟩ :=
        execQuery_ok_select_shape st env input cfg limit fm r st2 tr h hs hsel
      refine ⟨l, hrows, hcount, ?_, ?_⟩
      · rw [if_pos ⟨hs, hsel⟩, hrows]
        simp [List.enum_eq_enumFrom]
      · intro i v hv
        rw [if_pos ⟨hs, hsel⟩, hrows]
        rw [show (Option.getD (some l) [] : List Row) = l from rfl]
        rw [List.getElem?_map, List.enum_eq_enumFrom, List.getElem?_enumFrom,
          hv]
        simp

/-- The five-row `users` table of the specification's scenario. -/
def usersRows : List Row :=
  [[.vInt 1, .vStr (pyS "alice")], [.vInt 2, .vStr (pyS "bob")],
   [.vInt 3, .vStr (pyS "carol")], [.vInt 4, .vStr (pyS "dave")],
   [.vInt 5, .vStr (pyS "erin")]]

/-- A driver environment in which every operation succeeds and the
statement's full result set has five rows. -/
def envSelect5 : DBEnv :=
  { now := 0, createPoolResult := .ok 1, acquireResult := .ok (),
    useResult := .ok (), execResult := .ok (), resultSet := usersRows,
    fetchResult := .ok (), description := none, rowcount := -1,
    lastrowid := none }

/-- The query of the specification's row-limit scenario. -/
def qSel : PyStr := pyS "SELECT id, name FROM users LIMIT 3"

/-- Witness for C4: the scenario query against the five-row table with
`limit = 2`, yielding metadata, two indexed row events, and a summary. -/
theorem astream_events_spec_witness :
    ∃ r st2 tr,
      _execute_query ⟨none⟩ envSelect5 qSel none 2 true = (.ok r, st2, tr) ∧
      ∃ mid,
        (astream_events ⟨none⟩ envSelect5 qSel none 2 true).1 =
          metadataEvt r :: (mid ++ [summaryEvt r])
        ∧ (∀ ev ∈ mid, ∃ i row, ev = StreamEvent.row i row)
        ∧ (¬(r.success = true ∧ r.query_type = some (pyS "SELECT")) → mid = [])
        ∧ (r.success = true → r.query_type = some (pyS "SELECT") →
            ∃ l, r.rows = some l ∧ r.row_count = some l.length ∧
              mid.length = l.length ∧
              ∀ i v, l[i]? = some v →
                mid[i]? = some (StreamEvent.row i v)) :=
  ⟨_, _, _, rfl,
   (astream_events_spec ⟨none⟩ envSelect5 qSel none 2 true).2 _ _ _ rfl⟩

/-! ### C6: the row limit and the limited flag -/

theorem execBody_select (env : DBEnv) (q : PyStr) (db : Option PyStr)
    (limit : Int) (fm : Bool)
    (huse : ∀ d, db = some d → d ≠ [] → env.useResult = .ok ())
    (hexec : env.execResult = .ok ())
    (hqt : queryTypeOf q = some (pyS "SELECT"))
    (hfetch : env.fetchResult = .ok ()) :
    (execBody env q db limit fm).1 =
      .ok (selectRecord env q (pyS "SELECT") limit fm) := by
  have hA : ∀ tr0, (execAfterUse env q limit fm tr0).1 =
      .ok (selectRecord env q (pyS "SELECT") limit fm) := by
    intro tr0
    unfold execAfterUse
    rw [hexec, hqt]
    show (shapeStep env q (pyS "SELECT") limit fm
      (tr0 ++ [Effect.execSQL q])).1 = _
    unfold shapeStep
    rw [show classOfTag (pyS "SELECT") = .read from by decide, hfetch]
  cases db with
  | none =>
    rw [show execBody env q none limit fm = execAfterUse env q limit fm []
      from rfl]
    exact hA []
  | some d =>
    rw [show execBody env q (some d) limit fm =
        (if d = [] then execAfterUse env q limit fm []
         else match env.useResult with
           | .error e => (.error e, [.execSQL (pyS "USE " ++ d)])
           | .ok _ => execAfterUse env q limit fm
               [.execSQL (pyS "USE " ++ d)]) from rfl]
    by_cases hd : d = []
    · rw [if_pos hd]
      exact hA []
    · rw [if_neg hd, huse d rfl hd]
      exact hA _

/-- C6: for a SELECT execution with positive limit `L`: when the full
result has more than `L` rows, exactly `L` rows are returned and the
`limited` flag is true; when it has fewer than `L` rows, all rows are
returned and the flag is false; and the recorded `row_count` always equals
the number of returned rows. -/
theorem select_limit_spec (st : ToolState) (env : DBEnv) (q : PyStr)
    (db : Option PyStr) (limit : Int) (fm : Bool)
    (hpos : 0 < limit) (hsetup : setupOk st env)
    (huse : ∀ d, db = some d → d ≠ [] → env.useResult = .ok ())
    (hexec : env.execResult = .ok ())
    (hqt : queryTypeOf q = some (pyS "SELECT"))
    (hfetch : env.fetchResult = .ok ()) :
    ∃ r st2 tr, _execute_query st env q db limit fm = (.ok r, st2, tr) ∧
      r.rows = some (env.resultSet.take limit.toNat) ∧
      (∀ l, r.rows = some l → r.row_count = some l.length) ∧
      (limit < (env.resultSet.length : Int) →
        (env.resultSet.take limit.toNat).length = limit.toNat ∧
          r.limited = some true) ∧
      ((env.resultSet.length : Int) < limit →
        r.rows = some env.resultSet ∧ r.limited = some false) := by
  obtain ⟨st2, tr0, heq⟩ := execQuery_body st env q db limit fm hsetup
  rw [execBody_select env q db limit fm huse hexec hqt hfetch] at heq
  refine ⟨selectRecord env q (pyS "SELECT") limit fm, st2, _, heq, rfl,
    ?_, ?_, ?_⟩
  · intro l hl
    have hl2 : env.resultSet.take limit.toNat = l := by
      simpa [selectRecord] using hl
    show some (env.resultSet.take limit.toNat).length = some l.length
    rw [hl2]
  · intro hgt
    have hlen : (env.resultSet.take limit.toNat).length = limit.toNat := by
      rw [List.length_take]; omega
    refine ⟨hlen, ?_⟩
    show some (if env.resultSet.take limit.toNat = [] then false
        else decide (((env.resultSet.take limit.toNat).length : Int) = limit)) =
      some true
    rw [if_neg, hlen]
    · simp [Int.toNat_of_nonneg hpos.le]
    · intro hnil
      rw [hnil] at hlen
      simp at hlen
      omega
  · intro hlt
    have htake : env.resultSet.take limit.toNat = env.resultSet :=
      List.take_of_length_le (by omega)
    refine ⟨by rw [show (selectRecord env q (pyS "SELECT") limit fm).rows =
        some (env.resultSet.take limit.toNat) from rfl, htake], ?_⟩
    show some (if env.resultSet.take limit.toNat = [] then false
        else decide (((env.resultSet.take limit.toNat).length : Int) = limit)) =
      some false
    rw [htake]
    by_cases hnil : env.resultSet = []
    · rw [if_pos hnil]
    · rw [if_neg hnil]
      have hne : ¬ ((env.resultSet.length : Int) = limit) := by omega
      simp [hne]

/-- Witness for C6: the specification's scenario — the query
`SELECT id, name FROM users LIMIT 3` with `limit = 2` against a table with
5 rows yields `row_count = 2` and `limited = true`. -/
theorem select_limit_spec_witness :
    ∃ r st2 tr,
      _execute_query ⟨none⟩ envSelect5 qSel none 2 true = (.ok r, st2, tr) ∧
        r.row_count = some 2 ∧ r.limited = some true := by
  obtain ⟨r, st2, tr, heq, hrows, hcount, hgt, -⟩ :=
    select_limit_spec ⟨none⟩ envSelect5 qSel none 2 true (by decide)
      ⟨Or.inr ⟨1, rfl⟩, rfl⟩ (fun d hd => nomatch hd) rfl (by decide) rfl
  obtain ⟨hlen, hlim⟩ := hgt (by decide)
  refine ⟨r, st2, tr, heq, ?_, hlim⟩
  rw [hcount _ hrows, hlen]
  rfl

/-! ### C10: purity of the formatter -/

/-- C10: `_format_result` is a pure function of the Query Result Record:
its output is determined solely by the record — in particular it is
independent of the instance state (`self`), so formatting the same record
twice yields identical text, and the record (immutable data here, which
the function only reads) is left unchanged. -/
theorem format_result_pure (st1 st2 : ToolState) (r1 r2 : QueryResult)
    (h : r1 = r2) : _format_result st1 r1 = _format_result st2 r2 := by
  subst h
  rfl

/-- Witness for C10 at a concrete failure record and two different
instance states. -/
theorem format_result_pure_witness :
    _format_result ⟨none⟩
        (failureRecord (pyS "SELECT 1") ⟨pyS "boom", pyS "OperationalError"⟩ 0) =
      _format_result ⟨some 1⟩
        (failureRecord (pyS "SELECT 1") ⟨pyS "boom", pyS "OperationalError"⟩ 0) :=
  format_result_pure ⟨none⟩ ⟨some 1⟩ _ _ rfl

/-! ### C9: the DESCRIBE mode of the schema inspector -/

theorem splitAux_word (w : PyStr) (hw : ∀ c ∈ w, pyIsWs c = false) :
    ∀ (rest cur : PyStr),
      splitAux (w ++ rest) cur = splitAux rest (w.reverse ++ cur) := by
  induction w with
  | nil => intro rest cur; simp
  | cons c w' ih =>
    intro rest cur
    have hc : pyIsWs c = false := hw c (List.mem_cons_self c w')
    show splitAux (c :: (w' ++ rest)) cur = _
    rw [show splitAux (c :: (w' ++ rest)) cur = splitAux (w' ++ rest) (c :: cur)
      from by simp [splitAux, hc]]
    rw [ih (fun d hd => hw d (List.mem_cons_of_mem c hd)) rest (c :: cur)]
    simp

theorem firstToken_word_space (w rest : PyStr) (hw : w ≠ [])
    (hnws : ∀ c ∈ w, pyIsWs c = false) :
    firstToken (w ++ 32 :: rest) = some w := by
  unfold firstToken pySplitWs
  rw [splitAux_word w hnws (32 :: rest) [], List.append_nil]
  have h32 : pyIsWs 32 = true := by decide
  have hwr : w.reverse ≠ [] := by simpa using hw
  rw [show splitAux (32 :: rest) w.reverse =
      w.reverse.reverse :: splitAux rest [] from by simp [splitAux, h32, hwr]]
  simp

/-- The first token of any `DESCRIBE `-prefixed text is `DESCRIBE`,
whatever follows the space. -/
theorem queryTypeOf_describe (x : PyStr) :
    queryTypeOf (pyS "DESCRIBE " ++ x) = some (pyS "DESCRIBE") := by
  rw [queryTypeOf_eq]
  rw [show pyS "DESCRIBE " = pyS "DESCRIBE" ++ [32] from by decide,
    List.append_assoc]
  rw [show ([32] : PyStr) ++ x = 32 :: x from rfl]
  rw [firstToken_word_space _ _ (by decide) (by decide)]
  decide

theorem execBody_other (env : DBEnv) (q : PyStr) (db : Option PyStr)
    (limit : Int) (fm : Bool) (qt : PyStr)
    (huse : ∀ d, db = some d → d ≠ [] → env.useResult = .ok ())
    (hexec : env.execResult = .ok ())
    (hqt : queryTypeOf q = some qt) (hcls : classOfTag qt = .other)
    (hfetch : env.fetchResult = .ok ()) :
    (execBody env q db limit fm).1 = .ok (otherRecord env q qt fm) := by
  have hA : ∀ tr0, (execAfterUse env q limit fm tr0).1 =
      .ok (otherRecord env q qt fm) := by
    intro tr0
    unfold execAfterUse
    rw [hexec, hqt]
    show (shapeStep env q qt limit fm (tr0 ++ [Effect.execSQL q])).1 = _
    unfold shapeStep
    rw [hcls, hfetch]
  cases db with
  | none =>
    rw [show execBody env q none limit fm = execAfterUse env q limit fm []
      from rfl]
    exact hA []
  | some d =>
    rw [show execBody env q (some d) limit fm =
        (if d = [] then execAfterUse env q limit fm []
         else match env.useResult with
           | .error e => (.error e, [.execSQL (pyS "USE " ++ d)])
           | .ok _ => execAfterUse env q limit fm
               [.execSQL (pyS "USE " ++ d)]) from rfl]
    by_cases hd : d = []
    · rw [if_pos hd]
      exact hA []
    · rw [if_neg hd, huse d rfl hd]
      exact hA _

/-- One DESCRIBE bullet from a full six-field row (helper for stating the
rendering of well-formed result rows). -/
def descLine6 (r : Row) : PyStr :=
  match r with
  | [a, b, c, d, e, f] => descLine a b c d e f
  | _ => []

theorem renderDescribeRows_ok (rs : List Row) (h : ∀ r ∈ rs, r.length = 6) :
    renderDescribeRows rs = .ok ((rs.map descLine6).flatten) := by
  induction rs with
  | nil => rfl
  | cons r rest ih =>
    have hr : r.length = 6 := h r (List.mem_cons_self _ _)
    have hd : descRow r = .ok (descLine6 r) := by
      cases r with
      | nil => simp at hr
      | cons a r1 =>
        cases r1 with
        | nil => simp at hr
        | cons b r2 =>
          cases r2 with
          | nil => simp at hr
          | cons c r3 =>
            cases r3 with
            | nil => simp at hr
            | cons d r4 =>
              cases r4 with
              | nil => simp at hr
              | cons e r5 =>
                cases r5 with
                | nil => simp at hr
                | cons f r6 =>
                  cases r6 with
                  | nil => rfl
                  | cons g r7 => simp at hr
    show (match descRow r with
      | .error e => Except.error e
      | .ok line =>
        match renderDescribeRows rest with
        | .error e => Except.error e
        | .ok body => Except.ok (line ++ body)) = _
    rw [hd, ih (fun x hx => h x (List.mem_cons_of_mem _ hx))]
    rfl

theorem schemaDescribeRender_ok (ts : PyStr) (r : QueryResult)
    (hs : r.success = true) (l : List Row) (hr : r.rows = some l) :
    schemaDescribeRender ts (.ok r) =
      (if l ≠ [] then
        (match renderDescribeRows l with
         | .ok body => pyS "🔍 Schema for table '" ++ ts ++ pyS "':\n" ++ body
         | .error e => pyS "❌ MySQL Schema Tool Error: " ++ e.msg)
       else pyS "📋 Table '" ++ ts ++ pyS "' has no columns or doesn't exist") := by
  unfold schemaDescribeRender
  simp [hs, hr]

theorem schema_arun_describe (st : ToolState) (env : DBEnv)
    (database : Option PyStr) (t : PyStr) (idt : Bool) (ht : t ≠ []) :
    schema_arun st env database (some t) idt =
      (schemaDescribeRender (pyStrOptS (some t))
         (_execute_query st env (qDescribe database (some t)) database
           100 true).1,
       (_execute_query st env (qDescribe database (some t)) database
         100 true).2) := by
  have hBt : optTruthy (some t) = true := by simp [optTruthy, ht]
  unfold schema_arun
  rw [if_neg (fun hcon => by rw [hBt] at hcon; exact hcon.2 rfl),
    if_neg (fun hcon => by rw [hBt] at hcon; exact hcon.2 rfl)]

/-- C9: a DESCRIBE inspection (table given, with or without a database)
whose underlying execution succeeds with zero rows reports that the table
has no columns or doesn't exist — by construction not distinguishing a
missing table from one with no columns; when rows come back and each
carries the six positional fields, it renders exactly one bullet per row
built from those fields. -/
theorem schema_describe_spec (st : ToolState) (env : DBEnv)
    (database : Option PyStr) (t : PyStr) (idt : Bool) (ht : t ≠ [])
    (hsetup : setupOk st env)
    (huse : ∀ d, database = some d → d ≠ [] → env.useResult = .ok ())
    (hexec : env.execResult = .ok ()) (hfetch : env.fetchResult = .ok ()) :
    (env.resultSet = [] →
      (schema_arun st env database (some t) idt).1 =
        pyS "📋 Table '" ++ t ++ pyS "' has no columns or doesn't exist")
    ∧ ((∀ row ∈ env.resultSet, row.length = 6) → env.resultSet ≠ [] →
      (schema_arun st env database (some t) idt).1 =
        pyS "🔍 Schema for table '" ++ t ++ pyS "':\n" ++
          (env.resultSet.map descLine6).flatten) := by
  have hqt : queryTypeOf (qDescribe database (some t)) =
      some (pyS "DESCRIBE") := by
    unfold qDescribe
    exact queryTypeOf_describe _
  obtain ⟨st2, tr0, heq⟩ := execQuery_body st env (qDescribe database (some t))
    database 100 true hsetup
  rw [execBody_other env _ database 100 true _ huse hexec hqt (by decide)
    hfetch] at heq
  have hrender : (schema_arun st env database (some t) idt).1 =
      schemaDescribeRender (pyStrOptS (some t))
        (.ok (otherRecord env (qDescribe database (some t))
          (pyS "DESCRIBE") true)) := by
    rw [schema_arun_describe st env database t idt ht]
    show schemaDescribeRender (pyStrOptS (some t))
        (_execute_query st env (qDescribe database (some t)) database
          100 true).1 = _
    rw [heq]
  rw [hrender,
    schemaDescribeRender_ok _ _ rfl env.resultSet rfl]
  constructor
  · intro hrs
    rw [hrs]
    simp [pyStrOptS]
  · intro h6 hne
    rw [if_pos hne, renderDescribeRows_ok env.resultSet h6]
    rfl

/-- A driver environment whose DESCRIBE execution succeeds with zero rows
(the nonexistent-table scenario). -/
def envDescribeEmpty : DBEnv :=
  { now := 0, createPoolResult := .ok 1, acquireResult := .ok (),
    useResult := .ok (), execResult := .ok (), resultSet := [],
    fetchResult := .ok (), description := none, rowcount := 0,
    lastrowid := none }

/-- Witness for C9: describing the nonexistent table `ghost` yields the
"no columns or doesn't exist" message. -/
theorem schema_describe_spec_witness :
    envDescribeEmpty.resultSet = [] ∧
    (schema_arun ⟨none⟩ envDescribeEmpty none (some (pyS "ghost")) true).1 =
      pyS "📋 Table '" ++ pyS "ghost" ++
        pyS "' has no columns or doesn't exist" :=
  ⟨rfl,
   (schema_describe_spec ⟨none⟩ envDescribeEmpty none (pyS "ghost") true
     (by decide) ⟨Or.inr ⟨1, rfl⟩, rfl⟩ (fun d hd => nomatch hd) rfl rfl).1 rfl⟩

end StreamingMCP
